import Mathlib

/-!
Verification of the controller and node
services, shallowly embedded from the Go source.  Cloud and OS calls are
modelled by explicit environment records holding the outcome of each call, and
the functions additionally return the trace of cloud calls they issue.
-/

deriving instance DecidableEq for Except

namespace PDCSI

/-- gRPC status codes used by the driver (google.golang.org/grpc/codes). -/
inductive Code where
  | OK
  | InvalidArgument
  | Aborted
  | AlreadyExists
  | NotFound
  | FailedPrecondition
  | Internal
  | Unimplemented
  deriving DecidableEq, Repr

/-- A gRPC status error as produced by status.Error; messages are dropped,
only the code is tracked. -/
structure StatusErr where
  code : Code
  deriving DecidableEq, Repr

/-- Errors returned by the GCE cloud API, classified the way
gce.IsGCEError classifies them in the source. -/
inductive GceError where
  | alreadyExists
  | notFound
  | resourceInUseByAnotherResource
  | other
  deriving DecidableEq, Repr

/-- gce.IsGCEError(err, "alreadyExists") from the source: tests whether a
cloud error carries the given GCE error reason. -/
def IsGCEError (e : GceError) (reason : String) : Bool :=
  match e with
  | .alreadyExists => reason = "alreadyExists"
  | .notFound => reason = "notFound"
  | .resourceInUseByAnotherResource => reason = "resourceInUseByAnotherResource"
  | .other => false

/-! ## Constants (controller.go and pkg/common/constants.go) -/

/-- MinimumVolumeSizeInBytes = 5 * 1024 * 1024 * 1024 (controller.go). -/
def MinimumVolumeSizeInBytes : Int := 5 * 1024 * 1024 * 1024

/-- MinimumDiskSizeInGb = 5 (controller.go). -/
def MinimumDiskSizeInGb : Int := 5

/-- ParameterKeyType = "type" (pkg/common/constants.go). -/
def ParameterKeyType : String := "type"

/-- ParameterKeyReplicationType = "replication-type" (pkg/common/constants.go). -/
def ParameterKeyReplicationType : String := "replication-type"

/-- ParameterKeyDiskEncryptionKmsKey = "disk-encryption-kms-key"
(pkg/common/constants.go). -/
def ParameterKeyDiskEncryptionKmsKey : String := "disk-encryption-kms-key"

/-- Modelled from the spec: the zone override parameter key referenced by
CreateVolume as common.ParameterKeyZone is not present in
src/pkg/common/constants.go; the spec describes it only as "a zone
override key".  Its concrete spelling is irrelevant to the claims. -/
def ParameterKeyZone : String := "zone"

/-- TopologyKeyZone = "topology.gke.io/zone" (pkg/common/constants.go). -/
def TopologyKeyZone : String := "topology.gke.io/zone"

/-! ## Capacity resolution (getRequestCapacity, controller.go) -/

/-- csi.CapacityRange: both fields are int64, zero when unset. -/
structure CapacityRange where
  requiredBytes : Int
  limitBytes : Int
  deriving DecidableEq, Repr

/-- getRequestCapacity from controller.go.  A nil capacity range is `none`.
Errors carry no structure beyond the message (the single caller maps any
error to InvalidArgument). -/
def getRequestCapacity : Option CapacityRange → Except String Int
  | none => .ok MinimumVolumeSizeInBytes
  | some capRange =>
    let rBytes := capRange.requiredBytes
    let rSet := rBytes > 0
    let lBytes := capRange.limitBytes
    let lSet := lBytes > 0
    if lSet ∧ rSet ∧ lBytes < rBytes then
      .error "Limit bytes is less than required bytes"
    else if lSet ∧ lBytes < MinimumVolumeSizeInBytes then
      .error "Limit bytes is less than minimum volume size"
    else
      let capBytes := if rSet then rBytes else 0
      let capBytes :=
        if capBytes < MinimumVolumeSizeInBytes then MinimumVolumeSizeInBytes
        else capBytes
      .ok capBytes

example : getRequestCapacity none = .ok (5 * 1024 * 1024 * 1024) := rfl

example : getRequestCapacity (some ⟨1024 * 1024 * 1024, 0⟩) =
    .ok (5 * 1024 * 1024 * 1024) := rfl

example : (getRequestCapacity
    (some ⟨10 * 1024 * 1024 * 1024, 5 * 1024 * 1024 * 1024⟩)).isOk = false := by
  decide

example : (getRequestCapacity (some ⟨0, 1024 * 1024 * 1024⟩)).isOk = false := by
  decide

/-! ## Volume-ID codec (pkg/common, missing from src/) -/

/-- strings.Split on the separator character, written out so that the
kernel can evaluate it on literals. -/
def splitSlash : List Char → List Char → List String
  | [], acc => [String.mk acc.reverse]
  | c :: cs, acc =>
    if c = '/' then String.mk acc.reverse :: splitSlash cs []
    else splitSlash cs (c :: acc)

/-- Modelled from the spec: the Volume-ID Codec `Decode` (common.SplitZoneNameId /
common.VolumeIDToKey are not under src/): splits the identifier on the
separator and fails unless the result is exactly a zone and a name. -/
def SplitZoneNameId (id : String) : Except String (String × String) :=
  match splitSlash id.toList [] with
  | [zone, name] => .ok (zone, name)
  | _ => .error "malformed volume identifier"

/-- Modelled from the spec: the Volume-ID Codec `Encode`
(common.CombineVolumeId is not under src/): returns `zone/name`. -/
def CombineVolumeId (zone name : String) : String := zone ++ "/" ++ name

example : SplitZoneNameId (CombineVolumeId "us-central1-a" "my-disk") =
    .ok ("us-central1-a", "my-disk") := by decide

example : (SplitZoneNameId "").isOk = false := by decide

example : (SplitZoneNameId "a/b/c").isOk = false := by decide

/-! ## CreateVolume parameter parsing (controller.go) -/

/-- strings.ToLower, restricted to ASCII (all recognized parameter keys
are ASCII), written over the character list so the kernel can evaluate it. -/
def lowerAscii (s : String) : String := String.mk (s.toList.map Char.toLower)

/-- The parameter loop of CreateVolume (controller.go): the two
provisioner secret keys are skipped; otherwise the lowercased key selects
the disk type or the configured zone, and any other key fails
InvalidArgument.  The Go map is modelled as an association list. -/
def applyParameters : List (String × String) → String → String →
    Except StatusErr (String × String)
  | [], diskType, configuredZone => .ok (diskType, configuredZone)
  | (k, v) :: rest, diskType, configuredZone =>
    if k = "csiProvisionerSecretName" ∨ k = "csiProvisionerSecretNamespace" then
      applyParameters rest diskType configuredZone
    else if lowerAscii k = ParameterKeyType then
      applyParameters rest v configuredZone
    else if lowerAscii k = ParameterKeyZone then
      applyParameters rest diskType v
    else
      .error ⟨.InvalidArgument⟩

example : applyParameters [("TYPE", "pd-ssd")] "pd-standard" "" =
    .ok ("pd-ssd", "") := by decide

example : applyParameters [(ParameterKeyReplicationType, "none")] "pd-standard" "" =
    .error ⟨.InvalidArgument⟩ := by decide

example : applyParameters [("csiProvisionerSecretName", "s")] "pd-standard" "" =
    .ok ("pd-standard", "") := by decide

/-! ## Topology selection (pickTopology / getZoneFromSegment, controller.go) -/

/-- A csi.Topology; `segments` is `none` for a nil segment map, otherwise
the map is modelled as an association list. -/
structure Topology where
  segments : Option (List (String × String))
  deriving DecidableEq, Repr

/-- A csi.TopologyRequirement. -/
structure TopologyRequirement where
  requisite : List Topology
  preferred : List Topology
  deriving DecidableEq, Repr

/-- The loop of getZoneFromSegment (controller.go): the accumulator is the
`zone` variable, a key other than the topology zone key returns an error
immediately, and an empty zone at the end is an error. -/
def getZoneLoop : List (String × String) → String → Except String String
  | [], zone =>
    if zone.length = 0 then .error "topology specified but could not find zone in segment"
    else .ok zone
  | (k, v) :: rest, _zone =>
    if k = TopologyKeyZone then getZoneLoop rest v
    else .error "topology segment has unknown key"

/-- getZoneFromSegment from controller.go. -/
def getZoneFromSegment (seg : List (String × String)) : Except String String :=
  getZoneLoop seg ""

/-- pickTopology from controller.go.  `rnd n` models rand.Intn(n); an
out-of-range draw falls back to a nil-segment topology, and the theorems
assume the rand.Intn contract `rnd n < n`. -/
def pickTopology (rnd : Nat → Nat) (top : TopologyRequirement) :
    Except String String :=
  match top.preferred with
  | p0 :: _ =>
    match p0.segments with
    | none => .error "preferred topologies specified but no segments"
    | some seg =>
      match getZoneFromSegment seg with
      | .error e => .error ("could not get zone from preferred topology: " ++ e)
      | .ok zone => .ok zone
  | [] =>
    match top.requisite with
    | [] => .error "accessibility requirements specified but no requisite or preferred topologies"
    | q :: qs =>
      let reqTop := q :: qs
      let r := rnd reqTop.length
      match (reqTop.getD r ⟨none⟩).segments with
      | none => .error "requisite topologies specified but no segments in requisite topology"
      | some seg =>
        match getZoneFromSegment seg with
        | .error e => .error ("could not get zone from requisite topology: " ++ e)
        | .ok zone => .ok zone

example : pickTopology (fun _ => 0)
    { requisite := [], preferred := [⟨some [(TopologyKeyZone, "zone-a")]⟩] } =
    .ok "zone-a" := by decide

example : (pickTopology (fun _ => 0) { requisite := [], preferred := [] }).isOk =
    false := by decide

example : (getZoneFromSegment [("other-key", "v")]).isOk = false := by decide

/-! ## CreateVolume (controller.go) -/

/-- common.BytesToGb, missing from src/: bytes divided by 2^30, rounding
down (all uses here are on non-negative values). -/
def BytesToGb (bytes : Int) : Int := bytes / (1024 * 1024 * 1024)

/-- Modelled from the spec: the error of GetAndValidateExistingDisk
(pkg/gce-cloud-provider, not under src/).  Per the spec, a disk that
exists but is incompatible with the requested type and capacity bounds
fails AlreadyExists; any other cloud error is unexpected and surfaces as
Internal. -/
inductive CheckErr where
  | incompatible
  | lookupFailed
  deriving DecidableEq, Repr

/-- The gRPC status a GetAndValidateExistingDisk error carries. -/
def CheckErr.toStatusErr : CheckErr → StatusErr
  | .incompatible => ⟨.AlreadyExists⟩
  | .lookupFailed => ⟨.Internal⟩

/-- One cloud call issued by CreateVolume, in order. -/
inductive CloudCall where
  | getAndValidateExistingDisk
  | insertDisk (zone : String) (name : String) (sizeGb : Int) (diskType : String)
  | waitForOp
  deriving DecidableEq, Repr

/-- The outcomes of the cloud calls CreateVolume can make.  `check1` is
the idempotency check, `check2` / `check3` the re-checks run when
InsertDisk / WaitForOp report "alreadyExists"; `.ok true` means a
compatible disk exists, `.ok false` means no disk exists.  `rnd` models
rand.Intn for topology selection. -/
structure CreateEnv where
  zone : String
  check1 : Except CheckErr Bool
  insertDisk : Except GceError Unit
  waitForOp : Except GceError Unit
  check2 : Except CheckErr Bool
  check3 : Except CheckErr Bool
  rnd : Nat → Nat

/-- A csi.CreateVolumeRequest; volume capabilities are only length-checked
by CreateVolume, so their content is omitted. -/
structure CreateVolumeRequest where
  name : String
  volumeCapabilities : List Unit
  capacityRange : Option CapacityRange
  parameters : List (String × String)
  accessibilityRequirements : Option TopologyRequirement

/-- The parts of csi.CreateVolumeResponse the driver fills in: capacity,
the combined volume id and the single accessible-topology zone. -/
structure CreateVolumeResponse where
  capacityBytes : Int
  id : String
  accessibleZone : String
  deriving DecidableEq, Repr

/-- The accessibility-requirement block of CreateVolume (controller.go):
giving both a parameter zone and topology is InvalidArgument, a topology
failure is InvalidArgument, otherwise the picked or parameter zone. -/
def resolveZone (env : CreateEnv) (configuredZone : String)
    (acc : Option TopologyRequirement) : Except StatusErr String :=
  match acc with
  | some top =>
    if configuredZone.length ≠ 0 then .error ⟨.InvalidArgument⟩
    else
      match pickTopology env.rnd top with
      | .error _ => .error ⟨.InvalidArgument⟩
      | .ok z => .ok z
  | none => .ok configuredZone

/-- The validation and resolution phase of CreateVolume (controller.go):
argument checks, capacity resolution, parameter parsing and zone
resolution, before any cloud call.  Returns (capBytes, diskType, zone). -/
def resolveCreateParams (env : CreateEnv) (req : CreateVolumeRequest) :
    Except StatusErr (Int × String × String) :=
  if req.name.length = 0 then .error ⟨.InvalidArgument⟩
  else if req.volumeCapabilities.length = 0 then .error ⟨.InvalidArgument⟩
  else
    match getRequestCapacity req.capacityRange with
    | .error _ => .error ⟨.InvalidArgument⟩
    | .ok capBytes =>
      match applyParameters req.parameters "pd-standard" "" with
      | .error e => .error e
      | .ok (diskType, configuredZone) =>
        match resolveZone env configuredZone req.accessibilityRequirements with
        | .error e => .error e
        | .ok configuredZone =>
          let configuredZone :=
            if configuredZone.length = 0 then env.zone else configuredZone
          .ok (capBytes, diskType, configuredZone)

/-- The disk size CreateVolume sends to InsertDisk (controller.go):
BytesToGb of the resolved capacity, floored to the 5 GB minimum. -/
def insertSizeGb (capBytes : Int) : Int :=
  let sizeGb := BytesToGb capBytes
  if sizeGb < MinimumDiskSizeInGb then MinimumDiskSizeInGb else sizeGb

/-- The cloud phase of CreateVolume (controller.go): idempotency check,
InsertDisk, WaitForOp, with the "alreadyExists" races re-running the
existence check.  Returns the result paired with the trace of cloud
calls. -/
def createDiskPhase (env : CreateEnv) (name : String) (capBytes : Int)
    (diskType : String) (configuredZone : String) :
    Except StatusErr CreateVolumeResponse × List CloudCall :=
  let createResp : CreateVolumeResponse :=
    { capacityBytes := capBytes
      id := CombineVolumeId configuredZone name
      accessibleZone := configuredZone }
  match env.check1 with
  | .error e => (.error e.toStatusErr, [.getAndValidateExistingDisk])
  | .ok true => (.ok createResp, [.getAndValidateExistingDisk])
  | .ok false =>
    let ins := CloudCall.insertDisk configuredZone name (insertSizeGb capBytes) diskType
    match env.insertDisk with
    | .error e =>
      if IsGCEError e "alreadyExists" then
        match env.check2 with
        | .error e2 =>
          (.error e2.toStatusErr,
            [.getAndValidateExistingDisk, ins, .getAndValidateExistingDisk])
        | .ok _ =>
          (.ok createResp,
            [.getAndValidateExistingDisk, ins, .getAndValidateExistingDisk])
      else (.error ⟨.Internal⟩, [.getAndValidateExistingDisk, ins])
    | .ok _ =>
      match env.waitForOp with
      | .error e =>
        if IsGCEError e "alreadyExists" then
          match env.check3 with
          | .error e3 =>
            (.error e3.toStatusErr,
              [.getAndValidateExistingDisk, ins, .waitForOp,
                .getAndValidateExistingDisk])
          | .ok _ =>
            (.ok createResp,
              [.getAndValidateExistingDisk, ins, .waitForOp,
                .getAndValidateExistingDisk])
        else (.error ⟨.Internal⟩, [.getAndValidateExistingDisk, ins, .waitForOp])
      | .ok _ =>
        (.ok createResp, [.getAndValidateExistingDisk, ins, .waitForOp])

/-- CreateVolume from controller.go, as validation/resolution followed by
the cloud phase. -/
def createVolume (env : CreateEnv) (req : CreateVolumeRequest) :
    Except StatusErr CreateVolumeResponse × List CloudCall :=
  match resolveCreateParams env req with
  | .error e => (.error e, [])
  | .ok (capBytes, diskType, configuredZone) =>
    createDiskPhase env req.name capBytes diskType configuredZone

/-! ## DeleteVolume (controller.go) -/

/-- Outcomes of the cloud calls DeleteVolume makes. -/
structure DeleteEnv where
  deleteDisk : Except GceError Unit
  waitForOp : Except GceError Unit

/-- DeleteVolume from controller.go. -/
def deleteVolume (env : DeleteEnv) (volumeID : String) : Except StatusErr Unit :=
  if volumeID.length = 0 then .error ⟨.InvalidArgument⟩
  else
    match SplitZoneNameId volumeID with
    | .error _ => .ok ()
    | .ok _ =>
      match env.deleteDisk with
      | .error e =>
        if IsGCEError e "resourceInUseByAnotherResource" then
          .error ⟨.FailedPrecondition⟩
        else if IsGCEError e "notFound" then .ok ()
        else .error ⟨.Internal⟩
      | .ok _ =>
        match env.waitForOp with
        | .error _ => .error ⟨.Internal⟩
        | .ok _ => .ok ()

/-! ## ControllerPublishVolume (controller.go) -/

/-- A compute.Disk as used by the attach path. -/
structure Disk where
  name : String
  kind : String
  deriving DecidableEq, Repr

/-- A compute.AttachedDisk entry of an instance. -/
structure AttachedDisk where
  deviceName : String
  mode : String
  deriving DecidableEq, Repr

/-- A compute.Instance restricted to its attached-disk list. -/
structure Instance where
  disks : List AttachedDisk
  deriving DecidableEq, Repr

/-- A csi.VolumeCapability access type: mount with fs type and flags, or
raw block. -/
inductive VolumeCapability where
  | mount (fsType : String) (mountFlags : List String)
  | block
  deriving DecidableEq, Repr

/-- The loop of diskIsAttachedAndCompatible (controller.go): the first
attached disk whose device name matches decides; a mode mismatch returns
attached together with an error. -/
def attachedCompatibleLoop (volume : Disk) (readWrite : String) :
    List AttachedDisk → Bool × Option String
  | [] => (false, none)
  | d :: rest =>
    if d.deviceName = volume.name then
      if d.mode ≠ readWrite then (true, some "disk mode does not match")
      else (true, none)
    else attachedCompatibleLoop volume readWrite rest

/-- diskIsAttachedAndCompatible from controller.go.  The volume capability
argument is accepted and unused, as in the source (TODO there). -/
def diskIsAttachedAndCompatible (volume : Disk) (inst : Instance)
    (_volumeCapability : Option VolumeCapability) (readWrite : String) :
    Bool × Option String :=
  attachedCompatibleLoop volume readWrite inst.disks

/-- One cloud call issued by ControllerPublishVolume, in order. -/
inductive AttachCall where
  | getDisk
  | getInstance
  | attachDisk (mode : String)
  | waitForOp
  | waitForAttach
  deriving DecidableEq, Repr

/-- Outcomes of the cloud calls ControllerPublishVolume makes.
GetDiskOrError already returns a gRPC status error, passed through by the
source. -/
structure PublishEnv where
  getDisk : Except StatusErr Disk
  getInstance : Except GceError Instance
  attachDisk : Except GceError Unit
  waitForOp : Except GceError Unit
  waitForAttach : Except GceError Unit

/-- A csi.ControllerPublishVolumeRequest. -/
structure ControllerPublishVolumeRequest where
  volumeId : String
  nodeId : String
  readonly : Bool
  volumeCapability : Option VolumeCapability

/-- ControllerPublishVolume from controller.go, with the trace of cloud
calls it issues. -/
def controllerPublishVolume (env : PublishEnv)
    (req : ControllerPublishVolumeRequest) :
    Except StatusErr Unit × List AttachCall :=
  if req.volumeId.length = 0 then (.error ⟨.InvalidArgument⟩, [])
  else if req.nodeId.length = 0 then (.error ⟨.InvalidArgument⟩, [])
  else if req.volumeCapability = none then (.error ⟨.InvalidArgument⟩, [])
  else
    match SplitZoneNameId req.volumeId with
    | .error _ => (.error ⟨.NotFound⟩, [])
    | .ok _zoneName =>
      match env.getDisk with
      | .error e => (.error e, [.getDisk])
      | .ok disk =>
        match env.getInstance with
        | .error e =>
          if IsGCEError e "notFound" then
            (.error ⟨.NotFound⟩, [.getDisk, .getInstance])
          else (.error ⟨.Internal⟩, [.getDisk, .getInstance])
        | .ok inst =>
          let readWrite := if req.readonly then "READ_ONLY" else "READ_WRITE"
          match diskIsAttachedAndCompatible disk inst req.volumeCapability readWrite with
          | (_, some _) => (.error ⟨.AlreadyExists⟩, [.getDisk, .getInstance])
          | (true, none) => (.ok (), [.getDisk, .getInstance])
          | (false, none) =>
            match env.attachDisk with
            | .error _ =>
              (.error ⟨.Internal⟩, [.getDisk, .getInstance, .attachDisk readWrite])
            | .ok _ =>
              match env.waitForOp with
              | .error _ =>
                (.error ⟨.Internal⟩,
                  [.getDisk, .getInstance, .attachDisk readWrite, .waitForOp])
              | .ok _ =>
                match env.waitForAttach with
                | .error _ =>
                  (.error ⟨.Internal⟩,
                    [.getDisk, .getInstance, .attachDisk readWrite, .waitForOp,
                      .waitForAttach])
                | .ok _ =>
                  (.ok (),
                    [.getDisk, .getInstance, .attachDisk readWrite, .waitForOp,
                      .waitForAttach])

/-! ## NodeExpandVolume (node.go) -/

/-- Outcomes of the device-path resolution, filesystem resize and block
size query made by NodeExpandVolume. -/
structure NodeExpandEnv where
  getDevicePath : Except String String
  resize : Except String Unit
  getBlockSizeBytes : Except String Int

/-- A csi.NodeExpandVolumeRequest. -/
structure NodeExpandVolumeRequest where
  volumeId : String
  capacityRange : Option CapacityRange
  volumePath : String

/-- NodeExpandVolume from node.go: validate, resolve requested capacity,
decode the volume id, resolve the device path, resize, then compare the
post-resize block size to the requested bytes; the response carries
CapacityBytes. -/
def nodeExpandVolume (env : NodeExpandEnv) (req : NodeExpandVolumeRequest) :
    Except StatusErr Int :=
  if req.volumeId.length = 0 then .error ⟨.InvalidArgument⟩
  else
    match getRequestCapacity req.capacityRange with
    | .error _ => .error ⟨.InvalidArgument⟩
    | .ok reqBytes =>
      if req.volumePath.length = 0 then .error ⟨.InvalidArgument⟩
      else
        match SplitZoneNameId req.volumeId with
        | .error _ => .error ⟨.InvalidArgument⟩
        | .ok _volKey =>
          match env.getDevicePath with
          | .error _ => .error ⟨.Internal⟩
          | .ok _devicePath =>
            match env.resize with
            | .error _ => .error ⟨.Internal⟩
            | .ok _ =>
              match env.getBlockSizeBytes with
              | .error _ => .error ⟨.Internal⟩
              | .ok gotBlockSizeBytes =>
                if gotBlockSizeBytes < reqBytes then .error ⟨.Internal⟩
                else .ok reqBytes

/-! ## Volume locks (pkg/common, missing from src/) -/

/-- Modelled from the spec: common.VolumeLocks.TryAcquire — non-blocking;
returns false immediately when the identifier is already held, otherwise
records it as held.  The held set is modelled as a list. -/
def tryAcquire (locks : List String) (id : String) : Bool × List String :=
  if locks.contains id then (false, locks) else (true, id :: locks)

/-- Modelled from the spec: common.VolumeLocks.Release — removes the
identifier from the held set. -/
def release (locks : List String) (id : String) : List String := locks.erase id

/-! ## Node service locked operations (node.go) -/

/-- An error from a local mount/stat call, classified by os.IsNotExist as
the source does. -/
inductive OsError where
  | notExist
  | other
  deriving DecidableEq, Repr

/-- Outcomes of the local calls NodeStageVolume makes.  `capValid` stands
for validateVolumeCapability, which is repo code not under src/ (modelled
from the spec: malformed capability input fails InvalidArgument).
`isLikelyNotMountPoint` returns the Go (bool, error) pair. -/
structure NodeStageEnv where
  capValid : Bool
  getDevicePath : Except String String
  isLikelyNotMountPoint : Bool × Option OsError
  makeDir : Except String Unit
  formatAndMount : Except String Unit

/-- A csi.NodeStageVolumeRequest (the volume context only matters for the
partition attribute, which device-path resolution consumes inside
`getDevicePath`). -/
structure NodeStageVolumeRequest where
  volumeId : String
  stagingTargetPath : String
  volumeCapability : Option VolumeCapability

/-- The body of NodeStageVolume after the lock is acquired (node.go):
capability validation, id decode, device-path resolution, mount-point
check (creating the staging directory when it does not exist), then
either a no-op for block capability or FormatAndMount. -/
def nodeStageBody (env : NodeStageEnv) (req : NodeStageVolumeRequest) :
    Except StatusErr Unit :=
  if !env.capValid then .error ⟨.InvalidArgument⟩
  else
    match SplitZoneNameId req.volumeId with
    | .error _ => .error ⟨.InvalidArgument⟩
    | .ok _volKey =>
      match env.getDevicePath with
      | .error _ => .error ⟨.Internal⟩
      | .ok _devicePath =>
        let notMntRes : Except StatusErr Bool :=
          match env.isLikelyNotMountPoint with
          | (_, some .notExist) =>
            match env.makeDir with
            | .error _ => .error ⟨.Internal⟩
            | .ok _ => .ok true
          | (_, some .other) => .error ⟨.Internal⟩
          | (notMnt, none) => .ok notMnt
        match notMntRes with
        | .error e => .error e
        | .ok notMnt =>
          if !notMnt then .ok ()
          else
            match req.volumeCapability with
            | some .block => .ok ()
            | _ =>
              match env.formatAndMount with
              | .error _ => .error ⟨.Internal⟩
              | .ok _ => .ok ()

/-- NodeStageVolume from node.go: argument validation, per-volume lock
acquisition translating contention to Aborted, the staging body, and the
deferred release on every exit path.  Returns the result together with
the lock set after the call. -/
def nodeStageVolume (locks : List String) (env : NodeStageEnv)
    (req : NodeStageVolumeRequest) : Except StatusErr Unit × List String :=
  if req.volumeId.length = 0 then (.error ⟨.InvalidArgument⟩, locks)
  else if req.stagingTargetPath.length = 0 then (.error ⟨.InvalidArgument⟩, locks)
  else if req.volumeCapability = none then (.error ⟨.InvalidArgument⟩, locks)
  else
    match tryAcquire locks req.volumeId with
    | (false, locks1) => (.error ⟨.Aborted⟩, locks1)
    | (true, locks1) => (nodeStageBody env req, release locks1 req.volumeId)

/-- Outcome of mount.CleanupMountPoint, the only call NodeUnstageVolume
and NodeUnpublishVolume make under the lock. -/
structure CleanupEnv where
  cleanupMountPoint : Except String Unit

/-- A csi.NodeUnstageVolumeRequest. -/
structure NodeUnstageVolumeRequest where
  volumeId : String
  stagingTargetPath : String

/-- NodeUnstageVolume from node.go. -/
def nodeUnstageVolume (locks : List String) (env : CleanupEnv)
    (req : NodeUnstageVolumeRequest) : Except StatusErr Unit × List String :=
  if req.volumeId.length = 0 then (.error ⟨.InvalidArgument⟩, locks)
  else if req.stagingTargetPath.length = 0 then (.error ⟨.InvalidArgument⟩, locks)
  else
    match tryAcquire locks req.volumeId with
    | (false, locks1) => (.error ⟨.Aborted⟩, locks1)
    | (true, locks1) =>
      let res : Except StatusErr Unit :=
        match env.cleanupMountPoint with
        | .error _ => .error ⟨.Internal⟩
        | .ok _ => .ok ()
      (res, release locks1 req.volumeId)

/-- A csi.NodeUnpublishVolumeRequest. -/
structure NodeUnpublishVolumeRequest where
  volumeId : String
  targetPath : String

/-- NodeUnpublishVolume from node.go. -/
def nodeUnpublishVolume (locks : List String) (env : CleanupEnv)
    (req : NodeUnpublishVolumeRequest) : Except StatusErr Unit × List String :=
  if req.volumeId.length = 0 then (.error ⟨.InvalidArgument⟩, locks)
  else if req.targetPath.length = 0 then (.error ⟨.InvalidArgument⟩, locks)
  else
    match tryAcquire locks req.volumeId with
    | (false, locks1) => (.error ⟨.Aborted⟩, locks1)
    | (true, locks1) =>
      let res : Except StatusErr Unit :=
        match env.cleanupMountPoint with
        | .error _ => .error ⟨.Internal⟩
        | .ok _ => .ok ()
      (res, release locks1 req.volumeId)

/-- Outcomes of the local calls NodePublishVolume makes.  `capValid`
stands for validateVolumeCapability (repo code not under src/, modelled
from the spec).  The three `isLikelyNotMountPoint` fields are the initial
check on the target path and the two checks of the mount-failure recovery
path, each as a Go (bool, error) pair. -/
structure NodePublishEnv where
  capValid : Bool
  isNotMnt1 : Bool × Option OsError
  makeDir : Except String Unit
  getDevicePath : Except String String
  makeFile : Except String Unit
  removeFile : Except String Unit
  mount : Except String Unit
  isNotMnt2 : Bool × Option OsError
  unmount : Except String Unit
  isNotMnt3 : Bool × Option OsError

/-- A csi.NodePublishVolumeRequest. -/
structure NodePublishVolumeRequest where
  volumeId : String
  stagingTargetPath : String
  targetPath : String
  readonly : Bool
  volumeCapability : Option VolumeCapability
  volumeContext : List (String × String)

/-- The recovery path NodePublishVolume runs when the mount call fails
(node.go): re-check the mount point, unmount a partly completed mount, re-check
again, then remove the target and report Internal — every outcome is an
Internal error. -/
def nodePublishMountFailure (env : NodePublishEnv) : Except StatusErr Unit :=
  match env.isNotMnt2 with
  | (_, some _) => .error ⟨.Internal⟩
  | (notMnt, none) =>
    if !notMnt then
      match env.unmount with
      | .error _ => .error ⟨.Internal⟩
      | .ok _ =>
        match env.isNotMnt3 with
        | (_, some _) => .error ⟨.Internal⟩
        | (notMnt2, none) =>
          if !notMnt2 then .error ⟨.Internal⟩
          else .error ⟨.Internal⟩
    else .error ⟨.Internal⟩

/-- The body of NodePublishVolume after the lock is acquired (node.go):
capability validation, target mount-point check (already mounted is a
no-op success), the mount/block branch preparing the source path, the
bind mount, and the recovery path on mount failure. -/
def nodePublishBody (env : NodePublishEnv) (req : NodePublishVolumeRequest) :
    Except StatusErr Unit :=
  if !env.capValid then .error ⟨.InvalidArgument⟩
  else
    match env.isNotMnt1 with
    | (_, some .other) => .error ⟨.Internal⟩
    | mntCheck =>
      if !mntCheck.1 then .ok ()
      else
        let prepared : Except StatusErr Unit :=
          match req.volumeCapability with
          | some (.mount _fsType _mountFlags) =>
            match env.makeDir with
            | .error _ => .error ⟨.Internal⟩
            | .ok _ => .ok ()
          | some .block =>
            match env.getDevicePath with
            | .error _ => .error ⟨.Internal⟩
            | .ok _sourcePath =>
              match env.makeFile with
              | .error _ =>
                match env.removeFile with
                | .error _ => .error ⟨.Internal⟩
                | .ok _ => .error ⟨.Internal⟩
              | .ok _ => .ok ()
          | none => .error ⟨.InvalidArgument⟩
        match prepared with
        | .error e => .error e
        | .ok _ =>
          match env.mount with
          | .error _ => nodePublishMountFailure env
          | .ok _ => .ok ()

/-- NodePublishVolume from node.go: argument validation, per-volume lock
acquisition translating contention to Aborted, the publish body, and the
deferred release on every exit path. -/
def nodePublishVolume (locks : List String) (env : NodePublishEnv)
    (req : NodePublishVolumeRequest) : Except StatusErr Unit × List String :=
  if req.volumeId.length = 0 then (.error ⟨.InvalidArgument⟩, locks)
  else if req.stagingTargetPath.length = 0 then (.error ⟨.InvalidArgument⟩, locks)
  else if req.targetPath.length = 0 then (.error ⟨.InvalidArgument⟩, locks)
  else if req.volumeCapability = none then (.error ⟨.InvalidArgument⟩, locks)
  else
    match tryAcquire locks req.volumeId with
    | (false, locks1) => (.error ⟨.Aborted⟩, locks1)
    | (true, locks1) => (nodePublishBody env req, release locks1 req.volumeId)

/-! ## Theorems -/

/-- C2: capacity resolution — a nil range resolves to the 5 GiB minimum;
a set limit below a set required value fails; a set limit below the
minimum fails; otherwise the result is the required value if set, else
the minimum, floored up to the minimum; and every successful resolution
is at least the minimum and at most any set limit. -/
theorem getRequestCapacity_resolution :
    getRequestCapacity none = .ok MinimumVolumeSizeInBytes ∧
    (∀ r l : Int, 0 < l → 0 < r → l < r →
      (getRequestCapacity (some ⟨r, l⟩)).isOk = false) ∧
    (∀ r l : Int, 0 < l → l < MinimumVolumeSizeInBytes →
      (getRequestCapacity (some ⟨r, l⟩)).isOk = false) ∧
    (∀ r l : Int, ¬(0 < l ∧ 0 < r ∧ l < r) → ¬(0 < l ∧ l < MinimumVolumeSizeInBytes) →
      getRequestCapacity (some ⟨r, l⟩) =
        .ok (if 0 < r then
               (if r < MinimumVolumeSizeInBytes then MinimumVolumeSizeInBytes else r)
             else MinimumVolumeSizeInBytes)) ∧
    (∀ r l cap : Int, getRequestCapacity (some ⟨r, l⟩) = .ok cap →
      MinimumVolumeSizeInBytes ≤ cap ∧ (0 < l → cap ≤ l)) := by
  refine ⟨rfl, ?_, ?_, ?_, ?_⟩
  · intro r l hl hr hlr
    simp only [getRequestCapacity]
    rw [if_pos ⟨hl, hr, hlr⟩]
    rfl
  · intro r l hl hmin
    simp only [getRequestCapacity]
    by_cases h1 : 0 < l ∧ 0 < r ∧ l < r
    · rw [if_pos h1]; rfl
    · rw [if_neg h1, if_pos ⟨hl, hmin⟩]; rfl
  · intro r l h1 h2
    simp only [getRequestCapacity]
    rw [if_neg h1, if_neg h2]
    by_cases hr : 0 < r
    · simp only [if_pos hr]
    · simp only [if_neg hr,
        if_pos (show (0:Int) < MinimumVolumeSizeInBytes by decide)]
  · intro r l cap h
    simp only [getRequestCapacity] at h
    by_cases h1 : 0 < l ∧ 0 < r ∧ l < r
    · rw [if_pos h1] at h
      exact absurd h (fun hc => Except.noConfusion hc)
    · rw [if_neg h1] at h
      by_cases h2 : 0 < l ∧ l < MinimumVolumeSizeInBytes
      · rw [if_pos h2] at h
        exact absurd h (fun hc => Except.noConfusion hc)
      · rw [if_neg h2] at h
        push_neg at h1 h2
        by_cases hr : 0 < r
        · rw [if_pos hr] at h
          by_cases hc : r < MinimumVolumeSizeInBytes
          · rw [if_pos hc] at h
            injection h with h
            exact ⟨by omega, fun hl => by have := h2 hl; omega⟩
          · rw [if_neg hc] at h
            injection h with h
            exact ⟨by omega, fun hl => by have := h1 hl hr; omega⟩
        · rw [if_neg hr,
            if_pos (show (0:Int) < MinimumVolumeSizeInBytes by decide)] at h
          injection h with h
          exact ⟨by omega, fun hl => by have := h2 hl; omega⟩

/-- C2 witness: the four capacity-resolution examples from the spec. -/
theorem getRequestCapacity_resolution_witness :
    getRequestCapacity none = .ok MinimumVolumeSizeInBytes ∧
    (getRequestCapacity
      (some ⟨10 * 1024 * 1024 * 1024, 5 * 1024 * 1024 * 1024⟩)).isOk = false ∧
    (getRequestCapacity (some ⟨0, 1024 * 1024 * 1024⟩)).isOk = false ∧
    getRequestCapacity (some ⟨1024 * 1024 * 1024, 0⟩) =
      .ok (5 * 1024 * 1024 * 1024) := by
  refine ⟨getRequestCapacity_resolution.1, ?_, ?_, ?_⟩
  · exact getRequestCapacity_resolution.2.1 _ _ (by decide) (by decide) (by decide)
  · exact getRequestCapacity_resolution.2.2.1 _ _ (by decide) (by decide)
  · have h := getRequestCapacity_resolution.2.2.2.1 (1024 * 1024 * 1024) 0
      (by decide) (by decide)
    rw [h]
    decide

/-- Any error from the CreateVolume parameter loop is InvalidArgument. -/
theorem applyParameters_error_eq :
    ∀ (ps : List (String × String)) (dt z : String) (e : StatusErr),
      applyParameters ps dt z = .error e → e = ⟨.InvalidArgument⟩ := by
  intro ps
  induction ps with
  | nil =>
    intro dt z e h
    simp only [applyParameters] at h
    exact Except.noConfusion h
  | cons kv rest ih =>
    intro dt z e h
    obtain ⟨k, v⟩ := kv
    simp only [applyParameters] at h
    split_ifs at h
    · exact ih _ _ _ h
    · exact ih _ _ _ h
    · exact ih _ _ _ h
    · injection h with h
      exact h.symm

/-- Any error from the zone-resolution block is InvalidArgument. -/
theorem resolveZone_error_eq (env : CreateEnv) (cz : String)
    (acc : Option TopologyRequirement) (e : StatusErr)
    (h : resolveZone env cz acc = .error e) : e = ⟨.InvalidArgument⟩ := by
  cases acc with
  | none =>
    simp only [resolveZone] at h
    exact Except.noConfusion h
  | some top =>
    simp only [resolveZone] at h
    split_ifs at h with h1
    · injection h with h
      exact h.symm
    · split at h
      · injection h with h
        exact h.symm
      · exact Except.noConfusion h

/-- Any error from the CreateVolume validation and resolution phase is
InvalidArgument. -/
theorem resolveCreateParams_error_eq (env : CreateEnv) (req : CreateVolumeRequest)
    (e : StatusErr) (h : resolveCreateParams env req = .error e) :
    e = ⟨.InvalidArgument⟩ := by
  unfold resolveCreateParams at h
  split_ifs at h
  · injection h with h
    exact h.symm
  · injection h with h
    exact h.symm
  · split at h
    · injection h with h
      exact h.symm
    · split at h
      · rename_i e1 heq
        injection h with h
        subst h
        exact applyParameters_error_eq _ _ _ _ heq
      · split at h
        · rename_i e2 heq
          injection h with h
          subst h
          exact resolveZone_error_eq _ _ _ _ heq
        · exact Except.noConfusion h

/-- C1 (amended): CreateVolume acquires no per-volume lock: its result is
a pure function of the request and the cloud-call outcomes alone, with no
lock state, and no execution returns Aborted. -/
theorem createVolume_never_aborted (env : CreateEnv) (req : CreateVolumeRequest) :
    (createVolume env req).1 ≠ .error ⟨.Aborted⟩ := by
  unfold createVolume
  cases hres : resolveCreateParams env req with
  | error e =>
    have he := resolveCreateParams_error_eq env req e hres
    subst he
    simp
  | ok t =>
    obtain ⟨capBytes, diskType, zone⟩ := t
    obtain ⟨envZone, c1, ins, wop, c2, c3, rnd⟩ := env
    simp only [createDiskPhase]
    cases c1 with
    | error ce => cases ce <;> simp [CheckErr.toStatusErr]
    | ok b =>
      cases b with
      | true => simp
      | false =>
        dsimp only
        cases ins with
        | error ge =>
          dsimp only
          by_cases hge : IsGCEError ge "alreadyExists" = true
          · rw [if_pos hge]
            cases c2 with
            | error ce2 => cases ce2 <;> simp [CheckErr.toStatusErr]
            | ok b2 => simp
          · rw [if_neg hge]
            simp
        | ok u =>
          dsimp only
          cases wop with
          | error ge =>
            dsimp only
            by_cases hge : IsGCEError ge "alreadyExists" = true
            · rw [if_pos hge]
              cases c3 with
              | error ce3 => cases ce3 <;> simp [CheckErr.toStatusErr]
              | ok b3 => simp
            · rw [if_neg hge]
              simp
          | ok u2 => simp

/-- C1 witness: the no-Aborted property at a concrete request and
environment. -/
theorem createVolume_never_aborted_witness :
    (createVolume
      { zone := "zone-a", check1 := .ok false, insertDisk := .ok (),
        waitForOp := .ok (), check2 := .ok false, check3 := .ok false,
        rnd := fun _ => 0 }
      { name := "vol-2", volumeCapabilities := [()], capacityRange := none,
        parameters := [], accessibilityRequirements := none }).1 ≠
      .error ⟨.Aborted⟩ :=
  createVolume_never_aborted
    { zone := "zone-a", check1 := .ok false, insertDisk := .ok (),
      waitForOp := .ok (), check2 := .ok false, check3 := .ok false,
      rnd := fun _ => 0 }
    { name := "vol-2", volumeCapabilities := [()], capacityRange := none,
      parameters := [], accessibilityRequirements := none }

/-- C1 counterexample: the claim says CreateVolume first acquires the
per-volume lock keyed by the request name and fails Aborted when an
operation for the same name is in flight.  In the source CreateVolume has
no lock at all: on this concrete request its first action is already the
cloud existence check, it proceeds through InsertDisk and WaitForOp, and
(by the amended theorem) no input whatsoever makes it return Aborted. -/
theorem createVolume_counterexample_no_lock :
    createVolume
      { zone := "zone-a", check1 := .ok false, insertDisk := .ok (),
        waitForOp := .ok (), check2 := .ok false, check3 := .ok false,
        rnd := fun _ => 0 }
      { name := "vol-1", volumeCapabilities := [()], capacityRange := none,
        parameters := [], accessibilityRequirements := none } =
      (.ok { capacityBytes := MinimumVolumeSizeInBytes, id := "zone-a/vol-1",
             accessibleZone := "zone-a" },
       [.getAndValidateExistingDisk,
        .insertDisk "zone-a" "vol-1" 5 "pd-standard", .waitForOp]) := by
  decide

/-- C4: CreateVolume idempotency — when a compatible disk with the same
name and zone already exists, the call succeeds with the zone/name volume
identifier and issues no InsertDisk; an incompatible existing disk fails
AlreadyExists; and an "alreadyExists" result from InsertDisk or from
WaitForOp is resolved by re-running the same existence check, succeeding
when the re-check passes. -/
theorem createVolume_idempotent (env : CreateEnv) (req : CreateVolumeRequest)
    (capBytes : Int) (diskType zone : String)
    (hres : resolveCreateParams env req = .ok (capBytes, diskType, zone)) :
    (env.check1 = .ok true →
      createVolume env req =
        (.ok { capacityBytes := capBytes, id := CombineVolumeId zone req.name,
               accessibleZone := zone },
         [.getAndValidateExistingDisk])) ∧
    (env.check1 = .error .incompatible →
      (createVolume env req).1 = .error ⟨.AlreadyExists⟩) ∧
    (∀ ge, env.check1 = .ok false → env.insertDisk = .error ge →
      IsGCEError ge "alreadyExists" = true →
      (createVolume env req).2 =
        [.getAndValidateExistingDisk,
         .insertDisk zone req.name (insertSizeGb capBytes) diskType,
         .getAndValidateExistingDisk] ∧
      (∀ b, env.check2 = .ok b →
        (createVolume env req).1 =
          .ok { capacityBytes := capBytes, id := CombineVolumeId zone req.name,
                accessibleZone := zone })) ∧
    (∀ ge, env.check1 = .ok false → env.insertDisk = .ok () →
      env.waitForOp = .error ge → IsGCEError ge "alreadyExists" = true →
      (createVolume env req).2 =
        [.getAndValidateExistingDisk,
         .insertDisk zone req.name (insertSizeGb capBytes) diskType,
         .waitForOp, .getAndValidateExistingDisk] ∧
      (∀ b, env.check3 = .ok b →
        (createVolume env req).1 =
          .ok { capacityBytes := capBytes, id := CombineVolumeId zone req.name,
                accessibleZone := zone })) := by
  refine ⟨?_, ?_, ?_, ?_⟩
  · intro h1
    unfold createVolume
    rw [hres]
    unfold createDiskPhase
    rw [h1]
  · intro h1
    unfold createVolume
    rw [hres]
    unfold createDiskPhase
    rw [h1]
    rfl
  · intro ge h1 hins hge
    unfold createVolume
    rw [hres]
    unfold createDiskPhase
    rw [h1]
    dsimp only
    rw [hins]
    dsimp only
    rw [if_pos hge]
    constructor
    · cases hc2 : env.check2 with
      | error e2 => rfl
      | ok b2 => rfl
    · intro b hc2
      rw [hc2]
  · intro ge h1 hins hwop hge
    unfold createVolume
    rw [hres]
    unfold createDiskPhase
    rw [h1]
    dsimp only
    rw [hins]
    dsimp only
    rw [hwop]
    dsimp only
    rw [if_pos hge]
    constructor
    · cases hc3 : env.check3 with
      | error e3 => rfl
      | ok b3 => rfl
    · intro b hc3
      rw [hc3]

/-- C4 witness: with a compatible disk of the same name already present in
zone-a, CreateVolume succeeds with the identifier zone-a/vol-1 and its
trace contains only the existence check — no InsertDisk. -/
theorem createVolume_idempotent_witness :
    createVolume
      { zone := "zone-a", check1 := .ok true, insertDisk := .ok (),
        waitForOp := .ok (), check2 := .ok false, check3 := .ok false,
        rnd := fun _ => 0 }
      { name := "vol-1", volumeCapabilities := [()], capacityRange := none,
        parameters := [], accessibilityRequirements := none } =
      (.ok { capacityBytes := MinimumVolumeSizeInBytes, id := "zone-a/vol-1",
             accessibleZone := "zone-a" },
       [.getAndValidateExistingDisk]) :=
  (createVolume_idempotent
    { zone := "zone-a", check1 := .ok true, insertDisk := .ok (),
      waitForOp := .ok (), check2 := .ok false, check3 := .ok false,
      rnd := fun _ => 0 }
    { name := "vol-1", volumeCapabilities := [()], capacityRange := none,
      parameters := [], accessibilityRequirements := none }
    MinimumVolumeSizeInBytes "pd-standard" "zone-a" (by decide)).1 rfl

/-- C3 counterexample: the claim says the replication-type key is
recognized; in the source the parameter switch only knows the type and
zone keys, so a request whose parameters contain the replication-type key
fails InvalidArgument. -/
theorem createVolume_parameters_counterexample :
    (createVolume
      { zone := "zone-a", check1 := .ok false, insertDisk := .ok (),
        waitForOp := .ok (), check2 := .ok false, check3 := .ok false,
        rnd := fun _ => 0 }
      { name := "vol-1", volumeCapabilities := [()], capacityRange := none,
        parameters := [(ParameterKeyReplicationType, "none")],
        accessibilityRequirements := none }).1 = .error ⟨.InvalidArgument⟩ := by
  decide

/-- C3 (amended): parameter keys are matched case-insensitively, but only
the disk type key and the zone override key are recognized; the
replication-type and encryption-key keys are not recognized and fail
InvalidArgument like any other unknown key; the two provisioner
secret-reference keys are accepted and ignored; and a parameter error
surfaces from CreateVolume unchanged. -/
theorem createVolume_parameters (k v diskType zone : String)
    (rest : List (String × String))
    (hsec : ¬(k = "csiProvisionerSecretName" ∨ k = "csiProvisionerSecretNamespace")) :
    (lowerAscii k = ParameterKeyType →
      applyParameters ((k, v) :: rest) diskType zone =
        applyParameters rest v zone) ∧
    (lowerAscii k = ParameterKeyZone →
      applyParameters ((k, v) :: rest) diskType zone =
        applyParameters rest diskType v) ∧
    (lowerAscii k ≠ ParameterKeyType → lowerAscii k ≠ ParameterKeyZone →
      applyParameters ((k, v) :: rest) diskType zone =
        .error ⟨.InvalidArgument⟩) ∧
    (∀ k2, (k2 = "csiProvisionerSecretName" ∨ k2 = "csiProvisionerSecretNamespace") →
      applyParameters ((k2, v) :: rest) diskType zone =
        applyParameters rest diskType zone) ∧
    (lowerAscii ParameterKeyReplicationType ≠ ParameterKeyType ∧
     lowerAscii ParameterKeyReplicationType ≠ ParameterKeyZone ∧
     lowerAscii ParameterKeyDiskEncryptionKmsKey ≠ ParameterKeyType ∧
     lowerAscii ParameterKeyDiskEncryptionKmsKey ≠ ParameterKeyZone) ∧
    (∀ env req e cb, req.name.length ≠ 0 → req.volumeCapabilities.length ≠ 0 →
      getRequestCapacity req.capacityRange = .ok cb →
      applyParameters req.parameters "pd-standard" "" = .error e →
      (createVolume env req).1 = .error e) := by
  refine ⟨?_, ?_, ?_, ?_, by decide, ?_⟩
  · intro h
    simp only [applyParameters]
    rw [if_neg hsec, if_pos h]
  · intro h
    have hnt : lowerAscii k ≠ ParameterKeyType := by
      rw [h]; decide
    simp only [applyParameters]
    rw [if_neg hsec, if_neg hnt, if_pos h]
  · intro h1 h2
    simp only [applyParameters]
    rw [if_neg hsec, if_neg h1, if_neg h2]
  · intro k2 h
    simp only [applyParameters]
    rw [if_pos h]
  · intro env req e cb hn hc hcap happ
    unfold createVolume resolveCreateParams
    rw [if_neg hn, if_neg hc, hcap, happ]

/-- C3 witness: an upper-case type key is recognized; the encryption-key
key is rejected as unknown; a secret-reference key is skipped. -/
theorem createVolume_parameters_witness :
    applyParameters [("TYPE", "pd-ssd")] "pd-standard" "" = .ok ("pd-ssd", "") ∧
    applyParameters [(ParameterKeyDiskEncryptionKmsKey, "key-1")] "pd-standard" "" =
      .error ⟨.InvalidArgument⟩ ∧
    applyParameters [("csiProvisionerSecretName", "s")] "pd-standard" "" =
      .ok ("pd-standard", "") := by
  refine ⟨?_, ?_, ?_⟩
  · rw [(createVolume_parameters "TYPE" "pd-ssd" "pd-standard" "" []
      (by decide)).1 (by decide)]
    rfl
  · rw [(createVolume_parameters ParameterKeyDiskEncryptionKmsKey "key-1"
      "pd-standard" "" [] (by decide)).2.2.1 (by decide) (by decide)]
  · rw [(createVolume_parameters "x" "s" "pd-standard" "" []
      (by decide)).2.2.2.1 "csiProvisionerSecretName" (Or.inl rfl)]
    rfl

/-- C5 counterexample: the empty identifier fails to decode, yet
DeleteVolume returns InvalidArgument for it rather than success — the
required-field check precedes the lenient decode. -/
theorem deleteVolume_counterexample_empty_id :
    (SplitZoneNameId "").isOk = false ∧
    deleteVolume { deleteDisk := .ok (), waitForOp := .ok () } "" =
      .error ⟨.InvalidArgument⟩ := by
  decide

/-- C5 (amended): DeleteVolume is lenient for every non-empty volume
identifier that fails to decode (the empty identifier instead fails
InvalidArgument as a missing required field); a not-found delete is
success; an in-use delete fails FailedPrecondition; any other delete
error and any wait error fail Internal. -/
theorem deleteVolume_lenient (env : DeleteEnv) (id : String) :
    (id.length ≠ 0 → (SplitZoneNameId id).isOk = false →
      deleteVolume env id = .ok ()) ∧
    (id.length = 0 → deleteVolume env id = .error ⟨.InvalidArgument⟩) ∧
    (∀ zn, id.length ≠ 0 → SplitZoneNameId id = .ok zn →
      ((env.deleteDisk = .error .notFound → deleteVolume env id = .ok ()) ∧
       (env.deleteDisk = .error .resourceInUseByAnotherResource →
         deleteVolume env id = .error ⟨.FailedPrecondition⟩) ∧
       (∀ ge, env.deleteDisk = .error ge → ge ≠ .notFound →
         ge ≠ .resourceInUseByAnotherResource →
         deleteVolume env id = .error ⟨.Internal⟩) ∧
       (env.deleteDisk = .ok () → env.waitForOp = .ok () →
         deleteVolume env id = .ok ()) ∧
       (∀ ge, env.deleteDisk = .ok () → env.waitForOp = .error ge →
         deleteVolume env id = .error ⟨.Internal⟩))) := by
  refine ⟨?_, ?_, ?_⟩
  · intro hn hs
    unfold deleteVolume
    rw [if_neg hn]
    cases h : SplitZoneNameId id with
    | error s => rfl
    | ok zn => rw [h] at hs; exact Bool.noConfusion hs
  · intro hn
    unfold deleteVolume
    rw [if_pos hn]
  · intro zn hn hs
    refine ⟨?_, ?_, ?_, ?_, ?_⟩
    · intro hd
      unfold deleteVolume
      rw [if_neg hn, hs]
      dsimp only
      rw [hd]
      rfl
    · intro hd
      unfold deleteVolume
      rw [if_neg hn, hs]
      dsimp only
      rw [hd]
      rfl
    · intro ge hd h1 h2
      unfold deleteVolume
      rw [if_neg hn, hs]
      dsimp only
      rw [hd]
      cases ge with
      | notFound => exact absurd rfl h1
      | resourceInUseByAnotherResource => exact absurd rfl h2
      | alreadyExists => rfl
      | other => rfl
    · intro hd hw
      unfold deleteVolume
      rw [if_neg hn, hs]
      dsimp only
      rw [hd]
      dsimp only
      rw [hw]
    · intro ge hd hw
      unfold deleteVolume
      rw [if_neg hn, hs]
      dsimp only
      rw [hd]
      dsimp only
      rw [hw]

/-- C5 witness: a malformed non-empty identifier deletes successfully; a
not-found delete is success; an in-use delete fails FailedPrecondition. -/
theorem deleteVolume_lenient_witness :
    deleteVolume { deleteDisk := .ok (), waitForOp := .ok () } "malformed-id" =
      .ok () ∧
    deleteVolume { deleteDisk := .error GceError.notFound, waitForOp := .ok () }
      "zone-a/vol-1" = .ok () ∧
    deleteVolume
      { deleteDisk := .error GceError.resourceInUseByAnotherResource,
        waitForOp := .ok () }
      "zone-a/vol-1" = .error ⟨.FailedPrecondition⟩ :=
  ⟨(deleteVolume_lenient _ _).1 (by decide) (by decide),
   ((deleteVolume_lenient _ _).2.2 ("zone-a", "vol-1") (by decide) (by decide)).1 rfl,
   ((deleteVolume_lenient _ _).2.2 ("zone-a", "vol-1") (by decide) (by decide)).2.1 rfl⟩

/-- C6: ControllerPublishVolume idempotency — already attached with the
requested mode is a no-op success with no attach issued; attached with a
different mode fails AlreadyExists; otherwise an attach with mode
READ_ONLY or READ_WRITE per the readOnly flag is issued, the attach
operation is awaited, and the visibility of the attachment is additionally
awaited before success. -/
theorem controllerPublishVolume_idempotent (env : PublishEnv)
    (req : ControllerPublishVolumeRequest) (disk : Disk) (inst : Instance)
    (hv : req.volumeId.length ≠ 0) (hnid : req.nodeId.length ≠ 0)
    (hcap : req.volumeCapability ≠ none)
    (zn : String × String) (hs : SplitZoneNameId req.volumeId = .ok zn)
    (hd : env.getDisk = .ok disk) (hi : env.getInstance = .ok inst) :
    (diskIsAttachedAndCompatible disk inst req.volumeCapability
        (if req.readonly then "READ_ONLY" else "READ_WRITE") = (true, none) →
      controllerPublishVolume env req = (.ok (), [.getDisk, .getInstance])) ∧
    (∀ m, diskIsAttachedAndCompatible disk inst req.volumeCapability
        (if req.readonly then "READ_ONLY" else "READ_WRITE") = (true, some m) →
      (controllerPublishVolume env req).1 = .error ⟨.AlreadyExists⟩) ∧
    (diskIsAttachedAndCompatible disk inst req.volumeCapability
        (if req.readonly then "READ_ONLY" else "READ_WRITE") = (false, none) →
      ((env.attachDisk = .ok () → env.waitForOp = .ok () →
        env.waitForAttach = .ok () →
        controllerPublishVolume env req =
          (.ok (), [.getDisk, .getInstance,
            .attachDisk (if req.readonly then "READ_ONLY" else "READ_WRITE"),
            .waitForOp, .waitForAttach])) ∧
       (∀ e, env.attachDisk = .ok () → env.waitForOp = .ok () →
        env.waitForAttach = .error e →
        controllerPublishVolume env req =
          (.error ⟨.Internal⟩, [.getDisk, .getInstance,
            .attachDisk (if req.readonly then "READ_ONLY" else "READ_WRITE"),
            .waitForOp, .waitForAttach])))) := by
  refine ⟨?_, ?_, ?_⟩
  · intro hatt
    unfold controllerPublishVolume
    rw [if_neg hv, if_neg hnid, if_neg hcap, hs]
    dsimp only
    rw [hd]
    dsimp only
    rw [hi]
    dsimp only
    rw [hatt]
  · intro m hatt
    unfold controllerPublishVolume
    rw [if_neg hv, if_neg hnid, if_neg hcap, hs]
    dsimp only
    rw [hd]
    dsimp only
    rw [hi]
    dsimp only
    rw [hatt]
  · intro hatt
    constructor
    · intro ha hw hwa
      unfold controllerPublishVolume
      rw [if_neg hv, if_neg hnid, if_neg hcap, hs]
      dsimp only
      rw [hd]
      dsimp only
      rw [hi]
      dsimp only
      rw [hatt]
      dsimp only
      rw [ha]
      dsimp only
      rw [hw]
      dsimp only
      rw [hwa]
    · intro e ha hw hwa
      unfold controllerPublishVolume
      rw [if_neg hv, if_neg hnid, if_neg hcap, hs]
      dsimp only
      rw [hd]
      dsimp only
      rw [hi]
      dsimp only
      rw [hatt]
      dsimp only
      rw [ha]
      dsimp only
      rw [hw]
      dsimp only
      rw [hwa]

/-- C6 witness: a disk already attached read-write is a no-op success
with no attach call; attached read-only while read-write is requested
fails AlreadyExists. -/
theorem controllerPublishVolume_idempotent_witness :
    controllerPublishVolume
      { getDisk := .ok { name := "vol-1", kind := "compute#disk" },
        getInstance := .ok { disks := [{ deviceName := "vol-1", mode := "READ_WRITE" }] },
        attachDisk := .ok (), waitForOp := .ok (), waitForAttach := .ok () }
      { volumeId := "zone-a/vol-1", nodeId := "node-1", readonly := false,
        volumeCapability := some (.mount "ext4" []) } =
      (.ok (), [.getDisk, .getInstance]) ∧
    (controllerPublishVolume
      { getDisk := .ok { name := "vol-1", kind := "compute#disk" },
        getInstance := .ok { disks := [{ deviceName := "vol-1", mode := "READ_ONLY" }] },
        attachDisk := .ok (), waitForOp := .ok (), waitForAttach := .ok () }
      { volumeId := "zone-a/vol-1", nodeId := "node-1", readonly := false,
        volumeCapability := some (.mount "ext4" []) }).1 =
      .error ⟨.AlreadyExists⟩ :=
  ⟨(controllerPublishVolume_idempotent _ _
      { name := "vol-1", kind := "compute#disk" }
      { disks := [{ deviceName := "vol-1", mode := "READ_WRITE" }] }
      (by decide) (by decide) (by decide) ("zone-a", "vol-1") (by decide)
      rfl rfl).1 (by decide),
   (controllerPublishVolume_idempotent _ _
      { name := "vol-1", kind := "compute#disk" }
      { disks := [{ deviceName := "vol-1", mode := "READ_ONLY" }] }
      (by decide) (by decide) (by decide) ("zone-a", "vol-1") (by decide)
      rfl rfl).2.1 "disk mode does not match" (by decide)⟩

/-- C7: topology selection — with a non-empty preferred list the chosen
zone is the zone of the first preferred segment, independent of the
random source; with only a requisite list the chosen zone is the zone of
one of the requisite segments; with neither the call fails; a segment
with any key other than the zone key fails; and a topology failure makes
CreateVolume fail InvalidArgument. -/
theorem pickTopology_selection :
    (∀ (rnd rnd2 : Nat → Nat) (top : TopologyRequirement) (p : Topology)
        (ps : List Topology), top.preferred = p :: ps →
      pickTopology rnd top = pickTopology rnd2 top) ∧
    (∀ (rnd : Nat → Nat) (top : TopologyRequirement) (p : Topology)
        (ps : List Topology) (z : String), top.preferred = p :: ps →
      pickTopology rnd top = .ok z →
      ∃ seg, p.segments = some seg ∧ getZoneFromSegment seg = .ok z) ∧
    (∀ (rnd : Nat → Nat) (top : TopologyRequirement) (z : String),
      top.preferred = [] → (∀ n, 0 < n → rnd n < n) →
      pickTopology rnd top = .ok z →
      ∃ t, t ∈ top.requisite ∧ ∃ seg, t.segments = some seg ∧
        getZoneFromSegment seg = .ok z) ∧
    (∀ (rnd : Nat → Nat) (top : TopologyRequirement),
      top.preferred = [] → top.requisite = [] →
      (pickTopology rnd top).isOk = false) ∧
    (∀ (seg : List (String × String)) (k v : String), (k, v) ∈ seg →
      k ≠ TopologyKeyZone → (getZoneFromSegment seg).isOk = false) ∧
    (∀ env req top s cb dt, req.name.length ≠ 0 →
      req.volumeCapabilities.length ≠ 0 →
      getRequestCapacity req.capacityRange = .ok cb →
      applyParameters req.parameters "pd-standard" "" = .ok (dt, "") →
      req.accessibilityRequirements = some top →
      pickTopology env.rnd top = .error s →
      (createVolume env req).1 = .error ⟨.InvalidArgument⟩) := by
  have hloop : ∀ (seg : List (String × String)) (k v acc : String),
      (k, v) ∈ seg → k ≠ TopologyKeyZone →
      (getZoneLoop seg acc).isOk = false := by
    intro seg
    induction seg with
    | nil =>
      intro k v acc hmem hk
      exact absurd hmem (List.not_mem_nil _)
    | cons kv rest ih =>
      intro k v acc hmem hk
      obtain ⟨k1, v1⟩ := kv
      simp only [getZoneLoop]
      by_cases h1 : k1 = TopologyKeyZone
      · rw [if_pos h1]
        rcases List.mem_cons.mp hmem with he | hrest
        · injection he with he1 he2
          exact absurd (he1.trans h1) hk
        · exact ih k v v1 hrest hk
      · rw [if_neg h1]
        rfl
  refine ⟨?_, ?_, ?_, ?_, ?_, ?_⟩
  · intro rnd rnd2 top p ps h
    unfold pickTopology
    rw [h]
  · intro rnd top p ps z h hpt
    unfold pickTopology at hpt
    rw [h] at hpt
    dsimp only at hpt
    cases hseg : p.segments with
    | none => rw [hseg] at hpt; exact Except.noConfusion hpt
    | some seg =>
      rw [hseg] at hpt
      dsimp only at hpt
      cases hz : getZoneFromSegment seg with
      | error s => rw [hz] at hpt; exact Except.noConfusion hpt
      | ok z0 =>
        rw [hz] at hpt
        injection hpt with hpt
        exact ⟨seg, rfl, hpt ▸ hz⟩
  · intro rnd top z hp hrnd hpt
    unfold pickTopology at hpt
    rw [hp] at hpt
    cases hq : top.requisite with
    | nil =>
      rw [hq] at hpt
      exact Except.noConfusion hpt
    | cons q qs =>
      rw [hq] at hpt
      dsimp only at hpt
      have hlt : rnd (q :: qs).length < (q :: qs).length :=
        hrnd _ (by simp)
      have hget : (q :: qs).getD (rnd (q :: qs).length) ⟨none⟩ =
          (q :: qs)[rnd (q :: qs).length] := by
        rw [List.getD_eq_getElem?_getD, List.getElem?_eq_getElem hlt]
        rfl
      refine ⟨(q :: qs).getD (rnd (q :: qs).length) ⟨none⟩, ?_, ?_⟩
      · rw [hget]
        exact List.getElem_mem hlt
      · cases hseg : ((q :: qs).getD (rnd (q :: qs).length) ⟨none⟩).segments with
        | none => rw [hseg] at hpt; exact Except.noConfusion hpt
        | some seg =>
          rw [hseg] at hpt
          dsimp only at hpt
          cases hz : getZoneFromSegment seg with
          | error s => rw [hz] at hpt; exact Except.noConfusion hpt
          | ok z0 =>
            rw [hz] at hpt
            injection hpt with hpt
            exact ⟨seg, rfl, hpt ▸ hz⟩
  · intro rnd top hp hq
    unfold pickTopology
    rw [hp, hq]
    rfl
  · intro seg k v hmem hk
    exact hloop seg k v "" hmem hk
  · intro env req top s cb dt hn hc hcap happ hacc hpt
    unfold createVolume resolveCreateParams
    rw [if_neg hn, if_neg hc, hcap]
    dsimp only
    rw [happ]
    dsimp only
    rw [hacc]
    unfold resolveZone
    dsimp only
    rw [if_neg (by decide), hpt]

/-- C7 witness: the first preferred zone is chosen; a requisite-only
selection lands on a member of the requisite list; an unknown segment key
fails. -/
theorem pickTopology_selection_witness :
    (∃ seg, (Topology.mk (some [(TopologyKeyZone, "zone-a")])).segments = some seg ∧
      getZoneFromSegment seg = .ok "zone-a") ∧
    (∃ t, t ∈ [Topology.mk (some [(TopologyKeyZone, "zone-a")]),
        Topology.mk (some [(TopologyKeyZone, "zone-b")])] ∧
      ∃ seg, t.segments = some seg ∧ getZoneFromSegment seg = .ok "zone-b") ∧
    (getZoneFromSegment [("unknown-key", "v")]).isOk = false :=
  ⟨pickTopology_selection.2.1 (fun _ => 0)
      { requisite := [], preferred := [⟨some [(TopologyKeyZone, "zone-a")]⟩] }
      ⟨some [(TopologyKeyZone, "zone-a")]⟩ [] "zone-a" rfl (by decide),
   pickTopology_selection.2.2.1 (fun n => n - 1)
      { requisite := [⟨some [(TopologyKeyZone, "zone-a")]⟩,
          ⟨some [(TopologyKeyZone, "zone-b")]⟩], preferred := [] }
      "zone-b" rfl (fun n hn => by dsimp only; omega) (by decide),
   pickTopology_selection.2.2.2.2.1 [("unknown-key", "v")] "unknown-key" "v"
      (by decide) (by decide)⟩

/-- C8 counterexample: with a requested capacity of 6 GiB and a
post-resize block size of 10 GiB, NodeExpandVolume succeeds but reports
6 GiB in CapacityBytes — the requested size, not the post-resize size the
claim says is reported. -/
theorem nodeExpandVolume_counterexample :
    nodeExpandVolume
      { getDevicePath := .ok "/dev/sdb", resize := .ok (),
        getBlockSizeBytes := .ok (10 * 1024 * 1024 * 1024) }
      { volumeId := "zone-a/vol-1",
        capacityRange := some ⟨6 * 1024 * 1024 * 1024, 0⟩,
        volumePath := "/mnt/vol" } = .ok (6 * 1024 * 1024 * 1024) ∧
    (6 * 1024 * 1024 * 1024 : Int) ≠ 10 * 1024 * 1024 * 1024 := by
  decide

/-- C8 (amended): NodeExpandVolume resolves the device path, invokes the
filesystem resize, then verifies the post-resize block size is at least
the requested size — larger is accepted as success, smaller fails
Internal — and on success reports the requested (resolved) capacity in
CapacityBytes, not the measured post-resize size. -/
theorem nodeExpandVolume_verifies (env : NodeExpandEnv)
    (req : NodeExpandVolumeRequest) (reqBytes got : Int)
    (hv : req.volumeId.length ≠ 0)
    (hcap : getRequestCapacity req.capacityRange = .ok reqBytes)
    (hp : req.volumePath.length ≠ 0)
    (zn : String × String) (hs : SplitZoneNameId req.volumeId = .ok zn)
    (dp : String) (hdev : env.getDevicePath = .ok dp)
    (hres : env.resize = .ok ())
    (hgot : env.getBlockSizeBytes = .ok got) :
    (got < reqBytes → nodeExpandVolume env req = .error ⟨.Internal⟩) ∧
    (reqBytes ≤ got → nodeExpandVolume env req = .ok reqBytes) := by
  constructor <;> intro h <;>
    (unfold nodeExpandVolume
     rw [if_neg hv, hcap]
     dsimp only
     rw [if_neg hp, hs]
     dsimp only
     rw [hdev]
     dsimp only
     rw [hres]
     dsimp only
     rw [hgot]
     dsimp only)
  · rw [if_pos h]
  · rw [if_neg (by omega)]

/-- C8 witness: a post-resize size equal to the requested 5 GiB minimum
succeeds and reports it; a post-resize size below it fails Internal. -/
theorem nodeExpandVolume_verifies_witness :
    nodeExpandVolume
      { getDevicePath := .ok "/dev/sdb", resize := .ok (),
        getBlockSizeBytes := .ok MinimumVolumeSizeInBytes }
      { volumeId := "zone-a/vol-1", capacityRange := none,
        volumePath := "/mnt/vol" } = .ok MinimumVolumeSizeInBytes ∧
    nodeExpandVolume
      { getDevicePath := .ok "/dev/sdb", resize := .ok (),
        getBlockSizeBytes := .ok 4096 }
      { volumeId := "zone-a/vol-1", capacityRange := none,
        volumePath := "/mnt/vol" } = .error ⟨.Internal⟩ :=
  ⟨(nodeExpandVolume_verifies
      { getDevicePath := .ok "/dev/sdb", resize := .ok (),
        getBlockSizeBytes := .ok MinimumVolumeSizeInBytes }
      { volumeId := "zone-a/vol-1", capacityRange := none,
        volumePath := "/mnt/vol" }
      MinimumVolumeSizeInBytes MinimumVolumeSizeInBytes
      (by decide) rfl (by decide) ("zone-a", "vol-1") (by decide) "/dev/sdb"
      rfl rfl rfl).2 (by omega),
   (nodeExpandVolume_verifies
      { getDevicePath := .ok "/dev/sdb", resize := .ok (),
        getBlockSizeBytes := .ok 4096 }
      { volumeId := "zone-a/vol-1", capacityRange := none,
        volumePath := "/mnt/vol" }
      MinimumVolumeSizeInBytes 4096
      (by decide) rfl (by decide) ("zone-a", "vol-1") (by decide) "/dev/sdb"
      rfl rfl rfl).1 (by decide)⟩

/-- C9: each locked node operation (stage, unstage, publish, unpublish)
returns Aborted when the volume identifier is already held, and whenever
acquisition succeeds the identifier is released on every exit path: after
any call with valid arguments the lock set is exactly what it was before
the call. -/
theorem node_lock_discipline (locks : List String) :
    (∀ env req, req.volumeId.length ≠ 0 → req.stagingTargetPath.length ≠ 0 →
      req.volumeCapability ≠ none →
      ((locks.contains req.volumeId = true →
         nodeStageVolume locks env req = (.error ⟨.Aborted⟩, locks)) ∧
       (nodeStageVolume locks env req).2 = locks)) ∧
    (∀ env req, req.volumeId.length ≠ 0 → req.stagingTargetPath.length ≠ 0 →
      ((locks.contains req.volumeId = true →
         nodeUnstageVolume locks env req = (.error ⟨.Aborted⟩, locks)) ∧
       (nodeUnstageVolume locks env req).2 = locks)) ∧
    (∀ env req, req.volumeId.length ≠ 0 → req.stagingTargetPath.length ≠ 0 →
      req.targetPath.length ≠ 0 → req.volumeCapability ≠ none →
      ((locks.contains req.volumeId = true →
         nodePublishVolume locks env req = (.error ⟨.Aborted⟩, locks)) ∧
       (nodePublishVolume locks env req).2 = locks)) ∧
    (∀ env req, req.volumeId.length ≠ 0 → req.targetPath.length ≠ 0 →
      ((locks.contains req.volumeId = true →
         nodeUnpublishVolume locks env req = (.error ⟨.Aborted⟩, locks)) ∧
       (nodeUnpublishVolume locks env req).2 = locks)) := by
  refine ⟨?_, ?_, ?_, ?_⟩
  · intro env req h1 h2 h3
    constructor
    · intro hc
      unfold nodeStageVolume tryAcquire
      rw [if_neg h1, if_neg h2, if_neg h3, if_pos hc]
    · unfold nodeStageVolume tryAcquire
      rw [if_neg h1, if_neg h2, if_neg h3]
      by_cases hc : locks.contains req.volumeId = true
      · rw [if_pos hc]
      · rw [if_neg hc]
        dsimp only
        unfold release
        exact List.erase_cons_head _ _
  · intro env req h1 h2
    constructor
    · intro hc
      unfold nodeUnstageVolume tryAcquire
      rw [if_neg h1, if_neg h2, if_pos hc]
    · unfold nodeUnstageVolume tryAcquire
      rw [if_neg h1, if_neg h2]
      by_cases hc : locks.contains req.volumeId = true
      · rw [if_pos hc]
      · rw [if_neg hc]
        dsimp only
        unfold release
        exact List.erase_cons_head _ _
  · intro env req h1 h2 h3 h4
    constructor
    · intro hc
      unfold nodePublishVolume tryAcquire
      rw [if_neg h1, if_neg h2, if_neg h3, if_neg h4, if_pos hc]
    · unfold nodePublishVolume tryAcquire
      rw [if_neg h1, if_neg h2, if_neg h3, if_neg h4]
      by_cases hc : locks.contains req.volumeId = true
      · rw [if_pos hc]
      · rw [if_neg hc]
        dsimp only
        unfold release
        exact List.erase_cons_head _ _
  · intro env req h1 h2
    constructor
    · intro hc
      unfold nodeUnpublishVolume tryAcquire
      rw [if_neg h1, if_neg h2, if_pos hc]
    · unfold nodeUnpublishVolume tryAcquire
      rw [if_neg h1, if_neg h2]
      by_cases hc : locks.contains req.volumeId = true
      · rw [if_pos hc]
      · rw [if_neg hc]
        dsimp only
        unfold release
        exact List.erase_cons_head _ _

/-- C9 witness: staging a volume whose identifier is already held fails
Aborted and leaves the lock set unchanged; publishing with a free lock
set returns with the lock set restored to empty. -/
theorem node_lock_discipline_witness :
    nodeStageVolume ["zone-a/vol-1"]
      { capValid := true, getDevicePath := .ok "/dev/sdb",
        isLikelyNotMountPoint := (true, none), makeDir := .ok (),
        formatAndMount := .ok () }
      { volumeId := "zone-a/vol-1", stagingTargetPath := "/st",
        volumeCapability := some (.mount "ext4" []) } =
      (.error ⟨.Aborted⟩, ["zone-a/vol-1"]) ∧
    (nodePublishVolume []
      { capValid := true, isNotMnt1 := (true, none), makeDir := .ok (),
        getDevicePath := .ok "/dev/sdb", makeFile := .ok (),
        removeFile := .ok (), mount := .ok (), isNotMnt2 := (true, none),
        unmount := .ok (), isNotMnt3 := (true, none) }
      { volumeId := "zone-a/vol-1", stagingTargetPath := "/st",
        targetPath := "/t", readonly := false,
        volumeCapability := some (.mount "ext4" []),
        volumeContext := [] }).2 = [] :=
  ⟨((node_lock_discipline ["zone-a/vol-1"]).1 _ _
      (by decide) (by decide) (by decide)).1 (by decide),
   ((node_lock_discipline []).2.2.1 _ _
      (by decide) (by decide) (by decide) (by decide)).2⟩

/-- C10: capacity resolution treats non-positive required and limit
fields as absent — when both are ≤ 0 it resolves to the 5 GiB minimum
with no error. -/
theorem getRequestCapacity_nonpositive_absent :
    ∀ r l : Int, r ≤ 0 → l ≤ 0 →
      getRequestCapacity (some ⟨r, l⟩) = .ok MinimumVolumeSizeInBytes := by
  intro r l hr hl
  simp only [getRequestCapacity]
  rw [if_neg (show ¬(0 < l ∧ 0 < r ∧ l < r) by omega),
    if_neg (show ¬(0 < l ∧ l < MinimumVolumeSizeInBytes) by
      intro hc; omega),
    if_neg (show ¬ 0 < r by omega),
    if_pos (show (0:Int) < MinimumVolumeSizeInBytes by decide)]

/-- C10 witness: a negative required value and a zero limit resolve to the
minimum without an error. -/
theorem getRequestCapacity_nonpositive_absent_witness :
    getRequestCapacity (some ⟨-1, 0⟩) = .ok MinimumVolumeSizeInBytes :=
  getRequestCapacity_nonpositive_absent (-1) 0 (by decide) (by decide)

end PDCSI
